import Mathlib

/-!
Verification development for the lazyjira program (src/main.go).

The program wires a two-field interactive form (title/summary and body/
description) built on the external bubbletea and huh libraries, and on loop
exit submits a Jira issue built from the collected strings and a static
configuration record.

Embedding notes:
* Everything under `Model.update`, `Model.view`, `NewModel`, `buildIssue`,
  `mainAfterUI`, `mainExitCode` is translated directly from src/main.go.
* The form engine internals (the huh library: field focus, advance,
  completion) are not part of this repository; they are modelled from the
  spec (section 4.1) in the definitions marked `Modelled from the spec:`.
  The field declarations themselves (two fields, no validators) come from
  src/main.go `NewModel`.
* Styling (lipgloss) is an external pure rendering concern; a style render
  is modelled as tagging the text with the style name, which keeps the
  normal and error styles distinguishable without reproducing ANSI codes.
-/

namespace LazyJira

/-- src/main.go line 16: `const maxWidth = 160`. -/
def maxWidth : Int := 160

/-- src/main.go lines 36-37: the Base style has `Padding(1, 4, 0, 1)`
(top, right, bottom, left), so its horizontal frame size is
right + left = 4 + 1 = 5. -/
def baseHorizontalFrameSize : Int := 5

/-- src/main.go lines 59-64: the (otherwise unused) `state` tag type. -/
inductive state where
  | statusNormal
  | stateDone
deriving DecidableEq, Repr

/-- One input field of the form. Corresponds to one huh field declared in
`NewModel` (src/main.go lines 97-98): a label, whether it is the multi-line
Text field, and the current text buffer (the Go global bound through
`Value`). -/
structure Field where
  label : String
  multiline : Bool
  buffer : String
deriving DecidableEq, Repr

/-- The two fields constructed in `NewModel` (src/main.go lines 95-99)
attach no `Validate` option, and the huh default validator accepts every
value, so validation passes for every field: the declared-constraint check
of the spec always returns no error for this program. -/
def validateField (_ : Field) : Option String := none

/-- The state of the form engine: the field sequence, the index of the
focused field, the currently attached validation error messages (the huh
`form.Errors()` result), and the completion flag (`huh.StateCompleted`). -/
structure FormState where
  fields : List Field
  focus : Nat
  errors : List String
  completed : Bool
deriving DecidableEq, Repr

def defaultField : Field := { label := "", multiline := false, buffer := "" }

/-- The buffer of field `i` (the Go globals `summary` and `description` are
bound by pointer to fields 0 and 1, so after the loop they hold these
buffers). -/
def bufferAt (fs : FormState) (i : Nat) : String :=
  (fs.fields.getD i defaultField).buffer

def modifyAt : List Field → Nat → (Field → Field) → List Field
  | [], _, _ => []
  | f :: fs, 0, g => g f :: fs
  | f :: fs, n + 1, g => f :: modifyAt fs n g

/-- All validation errors currently carried by the fields. With
`validateField` always passing this list is empty in every reachable
state. -/
def FormState.allErrors (fs : FormState) : List String :=
  fs.fields.filterMap validateField

/-- Modelled from the spec: a field-edit event mutates the current field
text buffer; validation errors are recomputed from the declared
constraints (none are declared, see `validateField`). -/
def FormState.edit (fs : FormState) (s : String) : FormState :=
  { fs with
    fields := modifyAt fs.fields fs.focus (fun f => { f with buffer := f.buffer ++ s })
    errors := fs.allErrors }

/-- Index of the first field whose validation fails (list length when every
field validates). -/
def firstInvalidIdx (fields : List Field) : Nat :=
  fields.findIdx (fun f => (validateField f).isSome)

/-- Modelled from the spec: a field-advance event is accepted only if the
current field validation passes; on success focus moves to the next field;
advancing from the last field completes the machine only when every field
validates, otherwise focus returns to the first invalid field. -/
def FormState.advance (fs : FormState) : FormState :=
  match validateField (fs.fields.getD fs.focus defaultField) with
  | some _ => { fs with errors := fs.allErrors }
  | none =>
      if fs.focus + 1 < fs.fields.length then
        { fs with focus := fs.focus + 1, errors := fs.allErrors }
      else if fs.fields.all (fun f => (validateField f).isNone) then
        { fs with completed := true }
      else
        { fs with focus := firstInvalidIdx fs.fields, errors := fs.allErrors }

/-- Modelled from the spec: the form engine processes one key event; no
transition happens from the completed terminal state; the advance key
(enter, the huh default for both field kinds) advances, any other key is a
field edit appending its text. -/
def FormState.handleKey (fs : FormState) (k : String) : FormState :=
  if fs.completed then fs
  else if k = "enter" then fs.advance
  else fs.edit k

/-- The form built in `NewModel` (src/main.go lines 95-103): a single group
with the Summary input and the Description text area, both starting
empty. -/
def initialForm : FormState :=
  { fields :=
      [ { label := "Summary:", multiline := false, buffer := "" },
        { label := "Description:", multiline := true, buffer := "" } ],
    focus := 0, errors := [], completed := false }

/-- The messages the Update loop receives: terminal resize events
(`tea.WindowSizeMsg`, carrying the new width) and key events
(`tea.KeyMsg`, carrying the `msg.String()` representation). -/
inductive Msg where
  | windowSize (width : Int)
  | key (k : String)
deriving DecidableEq, Repr

/-- src/main.go lines 83-89: the bubbletea model. The `lg` and `styles`
fields are constant renderer handles and are folded into the rendering
functions below. -/
structure Model where
  state : state
  width : Int
  form : FormState
deriving DecidableEq, Repr

/-- src/main.go lines 91-105: `NewModel` starts with `width: maxWidth`, the
zero `state` tag and the two-field form. -/
def NewModel : Model :=
  { state := state.statusNormal, width := maxWidth, form := initialForm }

/-- src/main.go line 117: the key strings intercepted as cancellation. -/
def quitKeys : List String := ["esc", "ctrl+c", "q"]

/-- src/main.go lines 111-136: `Model.Update`. Returns the new model and
whether `tea.Quit` was emitted. A window-size message stores
`min(msg.Width, maxWidth) - Base.GetHorizontalFrameSize()` and is also
passed to `form.Update`, which only relayouts (no field or state change).
A cancellation key returns immediately with `tea.Quit` before the form
processes anything. Any other key is processed by the form, and `tea.Quit`
is emitted when the form state is completed afterwards. -/
def Model.update (m : Model) (msg : Msg) : Model × Bool :=
  match msg with
  | Msg.windowSize w =>
      ({ m with width := min w maxWidth - baseHorizontalFrameSize },
       m.form.completed)
  | Msg.key k =>
      if quitKeys.contains k = true then (m, true)
      else
        let f := m.form.handleKey k
        ({ m with form := f }, f.completed)

/-- The bubbletea event loop: messages are processed in order until
`tea.Quit` is emitted, after which the program stops and the remaining
messages are never delivered. Returns the final model and whether the loop
exited by quit. -/
def runModel : Model → List Msg → Model × Bool
  | m, [] => (m, false)
  | m, e :: es =>
      if (m.update e).2 = true then m.update e
      else runModel (m.update e).1 es

/-- The terminal flag of a finished run in the vocabulary of the spec:
`completed` when the form reports completion, `cancelled` when the loop was
quit without completion, `active` otherwise. -/
inductive Terminal where
  | active
  | completed
  | cancelled
deriving DecidableEq, Repr

def runTerminal (r : Model × Bool) : Terminal :=
  if r.1.form.completed = true then Terminal.completed
  else if r.2 = true then Terminal.cancelled
  else Terminal.active

/-- Modelled from the spec: a lipgloss style render is an external pure
rendering concern; it is modelled as tagging the text with the style
name. -/
def styled (name : String) (text : String) : String :=
  "<" ++ name ++ ">" ++ text ++ "</" ++ name ++ ">"

/-- Modelled from the spec: `lipgloss.PlaceHorizontal` with left alignment
pads the rendered content on the right with the whitespace character up to
the viewport width. -/
def placeHorizontalLeft (width : Int) (ws : String) (content : String) : String :=
  content ++ String.join (List.replicate (width - content.length).toNat ws)

/-- src/main.go lines 167-175: the normal header/footer boundary, rendered
with the HeaderText style and padded with the slash character. -/
def Model.appBoundaryView (m : Model) (text : String) : String :=
  placeHorizontalLeft m.width "/" (styled "HeaderText" text)

/-- src/main.go lines 177-185: the error boundary, rendered with the
ErrorHeaderText style and padded with the slash character. -/
def Model.appErrorBoundaryView (m : Model) (text : String) : String :=
  placeHorizontalLeft m.width "/" (styled "ErrorHeaderText" text)

/-- src/main.go lines 159-165: the concatenation of all current validation
error messages, in order. -/
def Model.errorView (m : Model) : String :=
  m.form.errors.foldl (fun s e => s ++ e) ""

/-- Modelled from the spec: the form engine render is a pure function of
the FormState; modelled as listing every field label and buffer, marking
the focused field. -/
def FormState.view (fs : FormState) : String :=
  String.join ((List.range fs.fields.length).map (fun i =>
    (if i = fs.focus then "> " else "  ")
      ++ (fs.fields.getD i defaultField).label ++ " "
      ++ (fs.fields.getD i defaultField).buffer ++ "\n"))

/-- Modelled from the spec: the keybinding help footer text
(`form.Help().ShortHelpView(form.KeyBinds())`), a constant of the huh
library for a fixed form. -/
def shortHelpView : String := "enter next - esc quit"

/-- src/main.go lines 138-157: `Model.View`. The header shows the app
title, replaced by the error boundary with the concatenated error messages
when any validation error is present; the footer shows the keybinding
help, replaced by a blank error boundary in that case; the whole output is
wrapped in the Base style. -/
def Model.view (m : Model) : String :=
  let errors := m.form.errors
  let header :=
    if errors.length > 0 then m.appErrorBoundaryView m.errorView
    else m.appBoundaryView "Create a JIRA Ticket"
  let footer :=
    if errors.length > 0 then m.appErrorBoundaryView ""
    else m.appBoundaryView shortHelpView
  styled "Base" (header ++ "\n" ++ m.form.view ++ "\n\n" ++ footer)

/-- src/main.go lines 78-81: the `create_issue` section of the
configuration. The `custom_fields` MarshalMap is modelled as an association
list (its values are attached verbatim, so their shape is irrelevant). -/
structure CreateIssueConfig where
  project : String
  customFields : List (String × String)
deriving DecidableEq, Repr

/-- src/main.go lines 71-76: the configuration record. -/
structure Config where
  jiraUrl : String
  username : String
  apiKey : String
  createIssue : CreateIssueConfig
deriving DecidableEq, Repr

/-- The subset of `jira.IssueFields` populated in src/main.go lines
217-229. -/
structure IssueFields where
  description : String
  typeName : String
  projectKey : String
  summary : String
  unknowns : List (String × String)
deriving DecidableEq, Repr

/-- src/main.go lines 217-229: the issue sent to the Jira client. The type
name is the literal "Bug"; project key and custom fields come verbatim
from the configuration; summary and description are the collected
globals. -/
def buildIssue (c : Config) (summary description : String) : IssueFields :=
  { description := description
    typeName := "Bug"
    projectKey := c.createIssue.project
    summary := summary
    unknowns := c.createIssue.customFields }

/-- What main does after the UI loop, as observable outcomes. -/
inductive MainOutcome where
  | runError
  | submitted (issue : IssueFields)
deriving DecidableEq, Repr

/-- src/main.go lines 207-231: after `tea.NewProgram(model).Run()` returns,
main exits 1 on a run error and otherwise unconditionally builds the issue
from the `summary` and `description` globals (the buffers of fields 0 and
1 of the final form) and calls `jiraClient.Issue.Create`. The final model
and its form state are never consulted. -/
def mainAfterUI (c : Config) (runErr : Bool) (finalForm : FormState) : MainOutcome :=
  if runErr then MainOutcome.runError
  else MainOutcome.submitted (buildIssue c (bufferAt finalForm 0) (bufferAt finalForm 1))

/-- src/main.go lines 208-236: the process exit status. Run error: exit 1.
Issue creation error: panic (modelled as status 2, non-zero). Otherwise the
issue key is printed and the process exits 0. The exit status does not
depend on whether the form was completed or cancelled. -/
def mainExitCode (runErr : Bool) (submitOk : Bool) : Nat :=
  if runErr then 1 else if submitOk then 0 else 2

/-- A concrete configuration used for evaluating main at concrete runs. -/
def sampleConfig : Config :=
  { jiraUrl := "https://jira.example.invalid"
    username := "user"
    apiKey := "key"
    createIssue := { project := "PROJ", customFields := [("team", "core")] } }

/-- The happy-path event trace of the spec scenario. -/
def happyMsgs : List Msg :=
  [Msg.key "Bug in login", Msg.key "enter", Msg.key "Steps: ...", Msg.key "enter"]

/-- A model whose form has already completed (used to instantiate general
statements at a concrete input). -/
def mDone : Model :=
  { NewModel with form := { initialForm with completed := true } }

/-- A model whose form carries a validation error message (used to
instantiate general statements about the render at a concrete input). -/
def mWithError : Model :=
  { NewModel with form := { initialForm with errors := ["Summary required."] } }

/-- A model differing from `NewModel` only in the unused state tag. -/
def mTagged : Model :=
  { NewModel with state := state.stateDone }

/-- Once the loop has exited by quit, appending further messages changes
nothing: they are never delivered. -/
theorem runModel_quit_absorb (m : Model) (es extra : List Msg)
    (h : (runModel m es).2 = true) :
    runModel m (es ++ extra) = runModel m es := by
  induction es generalizing m with
  | nil => simp [runModel] at h
  | cons e tl ih =>
      by_cases hq : (m.update e).2 = true
      · simp [runModel, hq]
      · simp only [runModel, hq, if_false, List.cons_append] at h ⊢
        exact ih (m.update e).1 h

/-- Claim C1 (code bug): evaluating the code at the failing input. The run
that edits the title to "B" and then presses escape ends cancelled, yet
main still reaches the Jira issue-creation call, submitting an issue built
from the partial buffers — the Submitter is invoked after a cancelled
Form Engine result, contradicting the claim. -/
theorem c1_cancelled_run_reaches_submitter :
    runTerminal (runModel NewModel [Msg.key "B", Msg.key "esc"]) = Terminal.cancelled ∧
    mainAfterUI sampleConfig false (runModel NewModel [Msg.key "B", Msg.key "esc"]).1.form
      = MainOutcome.submitted (buildIssue sampleConfig "B" "") := by
  constructor <;> rfl

/-- Claim C2 (counterexample): starting from the initial state with an
empty title, a field-advance event is NOT rejected: no validation error is
attached and focus moves off the title field to the body field, refuting
the claimed rejection at this concrete input. -/
theorem c2_counterexample :
    (NewModel.update (Msg.key "enter")).1.form.errors = [] ∧
    (NewModel.update (Msg.key "enter")).1.form.focus = 1 := by
  constructor <;> rfl

/-- Claim C2 (amended): the fields declare no validation constraints, so
the advance from the empty title is accepted — the state stays active with
no error and focus moves to the body field — and in general every
field-advance is accepted: it either completes the form (leaving fields
and focus unchanged) or moves focus to the next field without attaching an
error. -/
theorem c2_empty_title_advance_accepted :
    ((NewModel.update (Msg.key "enter")).1.form.completed = false ∧
     (NewModel.update (Msg.key "enter")).2 = false ∧
     (NewModel.update (Msg.key "enter")).1.form.errors = [] ∧
     (NewModel.update (Msg.key "enter")).1.form.focus = 1) ∧
    ∀ fs : FormState,
      (fs.advance.completed = true ∧ fs.advance.fields = fs.fields ∧
        fs.advance.focus = fs.focus) ∨
      (fs.advance.focus = fs.focus + 1 ∧ fs.advance.completed = fs.completed ∧
        fs.advance.errors = []) := by
  constructor
  · exact ⟨rfl, rfl, rfl, rfl⟩
  · intro fs
    by_cases h : fs.focus + 1 < fs.fields.length
    · right
      simp [FormState.advance, validateField, FormState.allErrors, h]
    · left
      simp [FormState.advance, validateField, h]

/-- Claim C3 (code bug): evaluating the code at the failing input. The run
quit with "q" ends cancelled, yet the loop exits cleanly (no run error),
main proceeds to the submission, and when the remote create succeeds the
process exits 0 — exactly the exit status of a successful submission, with
no distinct code or message marking the cancellation. -/
theorem c3_cancelled_exit_indistinguishable :
    runTerminal (runModel NewModel [Msg.key "q"]) = Terminal.cancelled ∧
    mainExitCode false true = 0 := by
  constructor <;> rfl

/-- Claim C4 (counterexample): a resize to width 200 (above the maximum
render width 160) stores 155, not the maximum 160: after the clamp the
code subtracts the Base style horizontal frame size. -/
theorem c4_counterexample :
    (NewModel.update (Msg.windowSize 200)).1.width = 155 ∧
    (155 : Int) ≠ maxWidth := by
  constructor <;> decide

/-- Claim C4 (amended): for every resize event with width at least the
maximum, the stored viewport width becomes `maxWidth` minus the Base style
horizontal frame size (160 - 5 = 155, a constant bounded by the maximum),
and the resize changes no field value, no state tag and no terminal flag:
quit is emitted exactly when the form had already completed. -/
theorem c4_resize_clamped_minus_frame (m : Model) (w : Int) (h : maxWidth ≤ w) :
    (m.update (Msg.windowSize w)).1.width = maxWidth - baseHorizontalFrameSize ∧
    (m.update (Msg.windowSize w)).1.form = m.form ∧
    (m.update (Msg.windowSize w)).1.state = m.state ∧
    (m.update (Msg.windowSize w)).2 = m.form.completed := by
  refine ⟨?_, rfl, rfl, rfl⟩
  simp [Model.update, min_eq_right h]

/-- Claim C4 witness: the amended statement at the concrete resize to
width 200 from the initial model. -/
theorem c4_resize_witness :
    (NewModel.update (Msg.windowSize 200)).1.width = maxWidth - baseHorizontalFrameSize ∧
    (NewModel.update (Msg.windowSize 200)).1.form = NewModel.form ∧
    (NewModel.update (Msg.windowSize 200)).1.state = NewModel.state ∧
    (NewModel.update (Msg.windowSize 200)).2 = NewModel.form.completed :=
  c4_resize_clamped_minus_frame NewModel 200 (by decide)

/-- Claim C5: terminal states are absorbing and never revert. Once a run
has reached a terminal state (quit emitted, covering both cancellation and
completion), any further messages leave the final model — every field
value included — and the terminal flag unchanged, so the machine never
re-enters active and never reaches both terminal states in one run; and a
completed form is preserved by every single update step, so completed
never reverts either. -/
theorem c5_terminal_absorbing (m : Model) (es extra : List Msg) (e : Msg)
    (h : (runModel m es).2 = true) :
    runModel m (es ++ extra) = runModel m es ∧
    (m.form.completed = true →
      (m.update e).1.form = m.form ∧ (m.update e).2 = true) := by
  refine ⟨runModel_quit_absorb m es extra h, fun hc => ?_⟩
  cases e with
  | windowSize w => exact ⟨rfl, hc⟩
  | key k =>
      by_cases hk : k ∈ quitKeys
      · simp [Model.update, hk]
      · simp [Model.update, hk, FormState.handleKey, hc]

/-- Claim C5 witness: the absorbing statement at a concrete input — a
completed model quit by "q", followed by a further key message. -/
theorem c5_witness :
    runModel mDone ([Msg.key "q"] ++ [Msg.key "a"]) = runModel mDone [Msg.key "q"] ∧
    ((mDone.update (Msg.key "a")).1.form = mDone.form ∧
      (mDone.update (Msg.key "a")).2 = true) := by
  have h := c5_terminal_absorbing mDone [Msg.key "q"] [Msg.key "a"] (Msg.key "a") (by decide)
  exact ⟨h.1, h.2 (by decide)⟩

/-- Claim C6: the happy-path scenario. Initialize, edit the title to
"Bug in login", advance, edit the body to "Steps: ...", advance: the run
ends completed with exactly those two collected field values. -/
theorem c6_happy_path_completed :
    runTerminal (runModel NewModel happyMsgs) = Terminal.completed ∧
    bufferAt (runModel NewModel happyMsgs).1.form 0 = "Bug in login" ∧
    bufferAt (runModel NewModel happyMsgs).1.form 1 = "Steps: ..." := by
  refine ⟨rfl, rfl, rfl⟩

/-- Claim C7: when any field carries a validation error the render
substitutes the error-styled boundary showing the concatenated error
messages for the normal header and a blank error-styled boundary for the
keybinding help footer; with no errors the normal header and help footer
are rendered. -/
theorem c7_error_header_substitution (m : Model) :
    (m.form.errors ≠ [] →
      m.view = styled "Base"
        (m.appErrorBoundaryView m.errorView ++ "\n" ++ m.form.view ++ "\n\n"
          ++ m.appErrorBoundaryView "")) ∧
    (m.form.errors = [] →
      m.view = styled "Base"
        (m.appBoundaryView "Create a JIRA Ticket" ++ "\n" ++ m.form.view ++ "\n\n"
          ++ m.appBoundaryView shortHelpView)) := by
  constructor
  · intro h
    have hl : 0 < m.form.errors.length := List.length_pos.mpr h
    simp [Model.view, hl]
  · intro h
    simp [Model.view, h]

/-- Claim C7 witness: the substitution at a concrete model carrying one
validation error, and the normal rendering at the initial model. -/
theorem c7_witness :
    mWithError.view = styled "Base"
      (mWithError.appErrorBoundaryView mWithError.errorView ++ "\n"
        ++ mWithError.form.view ++ "\n\n" ++ mWithError.appErrorBoundaryView "") ∧
    NewModel.view = styled "Base"
      (NewModel.appBoundaryView "Create a JIRA Ticket" ++ "\n"
        ++ NewModel.form.view ++ "\n\n" ++ NewModel.appBoundaryView shortHelpView) := by
  exact ⟨(c7_error_header_substitution mWithError).1 (by decide),
         (c7_error_header_substitution NewModel).2 rfl⟩

/-- Claim C8: the render is a deterministic pure function of the form
state and the stored viewport width: any two models agreeing on those two
components (regardless of the unused state tag) render identical output,
so calling render twice on the same state and width yields identical
text. -/
theorem c8_view_pure_in_form_and_width (m₁ m₂ : Model)
    (hf : m₁.form = m₂.form) (hw : m₁.width = m₂.width) :
    m₁.view = m₂.view := by
  cases m₁ with
  | mk s₁ w₁ f₁ =>
      cases m₂ with
      | mk s₂ w₂ f₂ =>
          simp only [Model.form, Model.width] at hf hw
          subst hf
          subst hw
          rfl

/-- Claim C8 witness: two concrete models agreeing on form and width but
differing in the state tag render the same output. -/
theorem c8_witness : NewModel.view = mTagged.view :=
  c8_view_pure_in_form_and_width NewModel mTagged rfl rfl

/-- Claim C9: the literal keystroke "q" is intercepted as a cancellation
key before any field processing: for every model the "q" key event quits
immediately and leaves the form — every text buffer included — untouched,
so a "q" key event can never append the character to the title or body
buffer. -/
theorem c9_q_key_intercepted (m : Model) :
    m.update (Msg.key "q") = (m, true) := rfl

/-- Claim C10: every submitted ticket is created with issue type fixed to
"Bug" regardless of operator input or configuration, while the configured
project key and custom fields are attached verbatim, and the summary and
description are exactly the collected strings. -/
theorem c10_issue_type_fixed_bug (c : Config) (s d : String) :
    (buildIssue c s d).typeName = "Bug" ∧
    (buildIssue c s d).projectKey = c.createIssue.project ∧
    (buildIssue c s d).unknowns = c.createIssue.customFields ∧
    (buildIssue c s d).summary = s ∧
    (buildIssue c s d).description = d :=
  ⟨rfl, rfl, rfl, rfl, rfl⟩

end LazyJira
